import Mathlib

/-!
Shallow embedding of the Open-PO / Workbench price reconciliation engine
(`Streamlit_app.py`): the static currency rate table and `convert_to_euro`
(lines 8-13, 188-192), the `process_data` pipeline (lines 194-249), the
`generate_insights` aggregator (lines 251-269) and the dashboard guard of
`main` (line 380).

Modelling choices:
- Monetary amounts and quantities are exact rationals (`ℚ`); the source
  computes with machine floats, but every property checked here concerns
  structure (nullability, join membership, ordering, counts), not rounding.
- A pandas cell that the source may turn into `None`/`NaN` is an
  `Option ℚ`; arithmetic on such cells propagates `none` the way
  pandas propagates `NaN`, and `none` sorts last the way pandas places
  `NaN` under `sort_values` (na_position defaults to last).
- The `PO_SHIPMENT_CREATION_DATE` cell is modelled as `Option Int`:
  `some y` is a date that `pd.to_datetime` parses, with calendar year `y`;
  `none` is an unparseable date (on which `pd.to_datetime` raises).
- A dataframe is a list of typed rows plus the list of column names that
  are actually present (`cols`); each pipeline step that subscripts a
  column raises `keyError` when that column is absent, in the order the
  source touches the columns.  Attribute names are kept already stripped
  of incidental whitespace (the source strips header names at line 210;
  only the unused `ORDER_TYPE` header carries stray spaces).
- The `try/except` wrapper of `process_data` is rendered as an
  `Except`-valued body (`process_data_body`) and an outer function that
  collapses any error to `none` (the Python `return None`).
-/

/-- Rate table `CONVERSION_RATES` (source lines 8-13): USD 0.93, GBP 1.2,
INR 0.011, JPY 0.0061, as exact rationals. -/
def CONVERSION_RATES : List (String × ℚ) :=
  [("USD", 93/100), ("GBP", 12/10), ("INR", 11/1000), ("JPY", 61/10000)]

/-- `convert_to_euro` (source lines 188-192): `price * rate` when the
currency is a key of the table, and Python `None` (here `none`) otherwise. -/
def convert_to_euro (price : ℚ) (currency : String) : Option ℚ :=
  match CONVERSION_RATES.lookup currency with
  | some rate => some (price * rate)
  | none => none

/-- Cell-level subtraction with pandas `NaN` (`none`) propagation. -/
def osub (a b : Option ℚ) : Option ℚ :=
  match a, b with
  | some x, some y => some (x - y)
  | _, _ => none

/-- Descending comparison used by `sort_values('Impact in Euros',
ascending=False)`: `oge a b` holds when `a` sorts no later than `b`;
`none` (pandas `NaN`) is placed after every number, and after itself. -/
def oge (a b : Option ℚ) : Bool :=
  match a, b with
  | some x, some y => decide (y ≤ x)
  | some _, none => true
  | none, some _ => false
  | none, none => true

/-- One row of the Open-PO extract, restricted to the attributes the engine
reads (`LINE_TYPE`, `ITEM`, `VENDOR_NUM`, `PO_SHIPMENT_CREATION_DATE`,
`QTY_ELIGIBLE_TO_SHIP`, `UNIT_PRICE`, `CURRNECY`); the remaining extract
columns (`ORDER_TYPE`, `PO_NUM`, ...) are pass-through payload never
inspected by the logic under verification. -/
structure OpenPoRow where
  lineType : String
  item : String
  vendorNum : String
  poShipmentCreationDate : Option Int
  qtyEligibleToShip : ℚ
  unitPrice : ℚ
  currnecy : String
deriving DecidableEq

/-- One row of the Workbench extract, restricted to the attributes the
engine reads; `DESCRIPTION` and `ASL_MPN` are pass-through payload. -/
structure WorkbenchRow where
  partNumber : String
  vendorNum : String
  vendorName : String
  dandb : String
  starsCategoryCode : String
  unitPrice : ℚ
  currencyCode : String
deriving DecidableEq

/-- An Open-PO dataframe: present column names plus typed rows. -/
structure OpenPoTable where
  cols : List String
  rows : List OpenPoRow
deriving DecidableEq

/-- A Workbench dataframe: present column names plus typed rows. -/
structure WorkbenchTable where
  cols : List String
  rows : List WorkbenchRow
deriving DecidableEq

/-- A row of the merged/derived dataframe returned by `process_data`,
after the renames of source lines 210-220 (`DANDB → VENDOR_DUNS`,
`UNIT_PRICE_x → Unit_Price_WB`, `CURRENCY_CODE → CURRENCY_CODE_WB`,
`UNIT_PRICE_y → UNIT_PRICE_OPO`, `CURRNECY → CURRNECY_OPO`) and the drop
of the `ITEM` join column (line 211). -/
structure ReconRow where
  partNumber : String
  vendorNum : String
  vendorName : String
  vendorDuns : String
  starsCategoryCode : String
  unitPriceWb : ℚ
  currencyCodeWb : String
  lineType : String
  poShipmentCreationDate : Option Int
  qtyEligibleToShip : ℚ
  unitPriceOpo : ℚ
  currnecyOpo : String
  igOg : String
  poYear : Option Int
  unitPriceWbEur : Option ℚ
  unitPriceOpoEur : Option ℚ
  priceDelta : Option ℚ
  impactEuros : Option ℚ
  openPoValue : Option ℚ
deriving DecidableEq

/-- Python exceptions that the body of `process_data` can raise.
`keyError f` is a pandas/`dict` `KeyError` on a missing column `f`;
`dateParseError` is the error `pd.to_datetime` raises on an unparseable
date (source line 228).  `schemaError f` is modelled from the spec, which
postulates a distinct `SchemaError` naming the missing field: no code in
the source ever constructs it, and it is included only so that the claim
about it can be stated and settled. -/
inductive PyError where
  | keyError (field : String)
  | dateParseError
  | schemaError (field : String)
deriving DecidableEq

/-- ASCII upper-casing of `str(x).upper()` (source line 224), on the
character list underlying the string. -/
def upperStr (s : String) : String :=
  String.mk (s.data.map Char.toUpper)

/-- Substring containment (Python `sub in s`), on character lists. -/
def containsSubList (pat : List Char) : List Char → Bool
  | [] => pat.isPrefixOf ([] : List Char)
  | c :: t => pat.isPrefixOf (c :: t) || containsSubList pat t

/-- Python `sub in s` on strings. -/
def containsSub (s pat : String) : Bool :=
  containsSubList pat.data s.data

/-- The merged row built for one matched (Workbench, Open-PO) pair,
with the derived columns of source lines 222-241: `IG/OG`, `PO Year`,
both EUR prices, `Price_Delta`, `Impact in Euros`, `Open PO Value`. -/
def buildRow (w : WorkbenchRow) (p : OpenPoRow) : ReconRow :=
  let wbEur := convert_to_euro w.unitPrice w.currencyCode
  let opoEur := convert_to_euro p.unitPrice p.currnecy
  let delta := osub opoEur wbEur
  { partNumber := w.partNumber
    vendorNum := w.vendorNum
    vendorName := w.vendorName
    vendorDuns := w.dandb
    starsCategoryCode := w.starsCategoryCode
    unitPriceWb := w.unitPrice
    currencyCodeWb := w.currencyCode
    lineType := p.lineType
    poShipmentCreationDate := p.poShipmentCreationDate
    qtyEligibleToShip := p.qtyEligibleToShip
    unitPriceOpo := p.unitPrice
    currnecyOpo := p.currnecy
    igOg :=
      if containsSub (upperStr w.vendorName) "SCHNEIDER"
          || containsSub (upperStr w.vendorName) "WUXI"
        then "IG" else "OG"
    poYear := p.poShipmentCreationDate
    unitPriceWbEur := wbEur
    unitPriceOpoEur := opoEur
    priceDelta := delta
    impactEuros := delta.map (fun d => d * p.qtyEligibleToShip)
    openPoValue := opoEur.map (fun x => p.qtyEligibleToShip * x) }

/-- The Open-PO rows surviving the filter of source line 198
(`LINE_TYPE == 'Inventory'`). -/
def invRows (po : OpenPoTable) : List OpenPoRow :=
  po.rows.filter (fun p => p.lineType == "Inventory")

/-- The matched pairs of the inner merge of source lines 201-207:
left frame Workbench, right frame the filtered Open-PO rows, keys
`PART_NUMBER = ITEM` and `VENDOR_NUM = VENDOR_NUM`; row order follows the
left frame, then the right frame, as pandas produces it. -/
def matchedPairs (po : OpenPoTable) (wb : WorkbenchTable) :
    List (WorkbenchRow × OpenPoRow) :=
  wb.rows.flatMap (fun w =>
    ((invRows po).filter
        (fun p => p.item == w.partNumber && p.vendorNum == w.vendorNum)).map
      (fun p => (w, p)))

/-- Descending-impact order on merged rows (source line 244). -/
def impactGe (a b : ReconRow) : Prop :=
  oge a.impactEuros b.impactEuros = true

instance : DecidableRel impactGe :=
  fun a b => inferInstanceAs (Decidable (_ = true))

/-- The first error the `try` body of `process_data` (source lines
196-246) raises, if any.  Each column subscript raises `keyError` when the
column is absent, in the order the source touches the columns; the
price/currency subscripts of lines 231-236 happen inside per-row lambdas,
so they are only reached when the merged frame is nonempty.
`pd.to_datetime` (line 228) raises when any merged row carries an
unparseable date. -/
def process_data_err (po : OpenPoTable) (wb : WorkbenchTable) :
    Option PyError :=
  if "LINE_TYPE" ∉ po.cols then some (.keyError "LINE_TYPE") else
  if "PART_NUMBER" ∉ wb.cols then some (.keyError "PART_NUMBER") else
  if "VENDOR_NUM" ∉ wb.cols then some (.keyError "VENDOR_NUM") else
  if "ITEM" ∉ po.cols then some (.keyError "ITEM") else
  if "VENDOR_NUM" ∉ po.cols then some (.keyError "VENDOR_NUM") else
  if "VENDOR_NAME" ∉ wb.cols then some (.keyError "VENDOR_NAME") else
  if "PO_SHIPMENT_CREATION_DATE" ∉ po.cols then
    some (.keyError "PO_SHIPMENT_CREATION_DATE") else
  if (matchedPairs po wb).any (fun wp => wp.2.poShipmentCreationDate.isNone) then
    some .dateParseError else
  if ¬ (matchedPairs po wb).isEmpty ∧ "UNIT_PRICE" ∉ wb.cols then
    some (.keyError "Unit_Price_WB") else
  if ¬ (matchedPairs po wb).isEmpty ∧ "CURRENCY_CODE" ∉ wb.cols then
    some (.keyError "CURRENCY_CODE_WB") else
  if ¬ (matchedPairs po wb).isEmpty ∧ "UNIT_PRICE" ∉ po.cols then
    some (.keyError "UNIT_PRICE_OPO") else
  if ¬ (matchedPairs po wb).isEmpty ∧ "CURRNECY" ∉ po.cols then
    some (.keyError "CURRNECY_OPO") else
  if "QTY_ELIGIBLE_TO_SHIP" ∉ po.cols then
    some (.keyError "QTY_ELIGIBLE_TO_SHIP") else
  none

/-- The `try` body of `process_data`: either the first error raised while
filtering, merging, deriving or converting, or the merged rows sorted by
descending impact (source line 244). -/
def process_data_body (po : OpenPoTable) (wb : WorkbenchTable) :
    Except PyError (List ReconRow) :=
  match process_data_err po wb with
  | some e => .error e
  | none => .ok (List.insertionSort impactGe
      ((matchedPairs po wb).map (fun wp => buildRow wp.1 wp.2)))

/-- `process_data` (source lines 194-249): the whole body runs under
`try/except Exception`, and any raised error becomes `return None`. -/
def process_data (po : OpenPoTable) (wb : WorkbenchTable) :
    Option (List ReconRow) :=
  (process_data_body po wb).toOption

/-- Sum of a cell column under the pandas default `skipna=True`:
`NaN`/`none` cells contribute nothing. -/
def sum_skipna (l : List (Option ℚ)) : ℚ :=
  (l.filterMap id).sum

/-- `groupby(key)['Impact in Euros'].sum()` (source lines 259-260):
group keys in first-occurrence order, `NaN`-skipping sums. -/
def group_impact_sum (key : ReconRow → String) (df : List ReconRow) :
    List (String × ℚ) :=
  ((df.map key).dedup).map
    (fun k => (k, sum_skipna ((df.filter (fun r => key r == k)).map
      (fun r => r.impactEuros))))

/-- `.sort_values(ascending=False).head(5)` on a keyed sum. -/
def top5_desc (l : List (String × ℚ)) : List (String × ℚ) :=
  (List.insertionSort (fun a b => b.2 ≤ a.2) l).take 5

/-- The summary dictionary returned by `generate_insights`
(source lines 262-269). -/
structure InsightSummary where
  totalImpact : ℚ
  totalPoValue : ℚ
  totalParts : Nat
  uniqueVendors : Nat
  impactByVendor : List (String × ℚ)
  impactByCategory : List (String × ℚ)
deriving DecidableEq

/-- `generate_insights` (source lines 251-269): `total_parts` is
`len(df)`, `unique_vendors` is `df['VENDOR_NAME'].nunique()`. -/
def generate_insights (df : List ReconRow) : InsightSummary :=
  { totalImpact := sum_skipna (df.map (fun r => r.impactEuros))
    totalPoValue := sum_skipna (df.map (fun r => r.openPoValue))
    totalParts := df.length
    uniqueVendors := (df.map (fun r => r.vendorName)).dedup.length
    impactByVendor := top5_desc (group_impact_sum (fun r => r.vendorName) df)
    impactByCategory :=
      top5_desc (group_impact_sum (fun r => r.starsCategoryCode) df) }

/-- The guard of `main` (source line 380): the insight dashboard is
rendered only when `process_data` returned a frame and it is nonempty. -/
def main_renders_dashboard (res : Option (List ReconRow)) : Bool :=
  match res with
  | none => false
  | some df => !df.isEmpty

/-- Modelled from the spec: the count of distinct part identifiers of a
reconciled table, as a set-cardinality over the part attribute
(spec section 4.3, "Distinct-part ... counts use set-cardinality over the
respective identifying attribute"). -/
def spec_distinct_parts (df : List ReconRow) : Nat :=
  (df.map (fun r => r.partNumber)).dedup.length

/-- Modelled from the spec: the count of distinct vendors of a reconciled
table, as a set-cardinality over the vendor-name attribute. -/
def spec_distinct_vendors (df : List ReconRow) : Nat :=
  (df.map (fun r => r.vendorName)).dedup.length

/-- Does an engine result carry the `SchemaError` the spec postulates? -/
def is_schema_error_result (r : Except PyError (List ReconRow)) : Bool :=
  match r with
  | .error (.schemaError _) => true
  | _ => false

/-! ## Concrete tables used for witnesses and counterexamples -/

/-- The column set `main` reads from the Open-PO workbook (lines 363-368);
`ORDER_TYPE` is kept in stripped form. -/
def openPoUsecols : List String :=
  ["ORDER_TYPE", "LINE_TYPE", "ITEM", "VENDOR_NUM", "PO_NUM", "RELEASE_NUM",
   "LINE_NUM", "SHIPMENT_NUM", "AUTHORIZATION_STATUS",
   "PO_SHIPMENT_CREATION_DATE", "QTY_ELIGIBLE_TO_SHIP", "UNIT_PRICE",
   "CURRNECY"]

/-- The column set `main` reads from the Workbench workbook (lines 370-374). -/
def workbenchUsecols : List String :=
  ["PART_NUMBER", "DESCRIPTION", "VENDOR_NUM", "VENDOR_NAME", "DANDB",
   "STARS Category Code", "ASL_MPN", "UNIT_PRICE", "CURRENCY_CODE"]

/-- Sample Workbench row: part P1 from vendor V1 at 40 USD. -/
def w0 : WorkbenchRow :=
  ⟨"P1", "V1", "ACME", "123", "CAT1", 40, "USD"⟩

/-- Sample Open-PO row: inventory line for P1/V1, qty 10 at 50 USD. -/
def p0 : OpenPoRow :=
  ⟨"Inventory", "P1", "V1", some 2024, 10, 50, "USD"⟩

/-- One-row Open-PO table. -/
def sPo : OpenPoTable := ⟨openPoUsecols, [p0]⟩

/-- One-row Workbench table. -/
def sWb : WorkbenchTable := ⟨workbenchUsecols, [w0]⟩

/-- Open-PO row for the same part/vendor but in an unrecognized currency. -/
def pB : OpenPoRow :=
  ⟨"Inventory", "P1", "V1", some 2024, 5, 60, "ZZZ"⟩

/-- Two-row Open-PO table: one USD line and one ZZZ line, both for P1/V1. -/
def cPo : OpenPoTable := ⟨openPoUsecols, [p0, pB]⟩

/-- Workbench row matching the bad-date Open-PO line below. -/
def c6w : WorkbenchRow :=
  ⟨"P2", "V1", "ACME", "123", "CAT1", 5, "USD"⟩

/-- Open-PO inventory line whose shipment-creation date does not parse. -/
def c6p : OpenPoRow :=
  ⟨"Inventory", "P2", "V1", none, 3, 7, "USD"⟩

/-- One-row Open-PO table with an unparseable date. -/
def c6Po : OpenPoTable := ⟨openPoUsecols, [c6p]⟩

/-- One-row Workbench table matching `c6Po`. -/
def c6Wb : WorkbenchTable := ⟨workbenchUsecols, [c6w]⟩

/-- Open-PO table whose `LINE_TYPE` column is absent. -/
def c8Po : OpenPoTable :=
  ⟨["ORDER_TYPE", "ITEM", "VENDOR_NUM", "PO_NUM", "RELEASE_NUM",
    "LINE_NUM", "SHIPMENT_NUM", "AUTHORIZATION_STATUS",
    "PO_SHIPMENT_CREATION_DATE", "QTY_ELIGIBLE_TO_SHIP", "UNIT_PRICE",
    "CURRNECY"], [p0]⟩

/-! ## Structural lemmas about `process_data` -/

/-- Evaluated happy-path run: the single matched pair is reconciled. -/
theorem sample_run : process_data sPo sWb = some [buildRow w0 p0] := rfl

/-- Evaluated mixed-currency run: both lines are reconciled; the `none`
(`NaN`) impact of the ZZZ line sorts after the numeric one. -/
theorem c34_run :
    process_data cPo sWb = some [buildRow w0 p0, buildRow w0 pB] := rfl


/-- On success, the returned frame is exactly the matched pairs, built and
sorted by descending impact. -/
lemma process_data_some_eq (po : OpenPoTable) (wb : WorkbenchTable)
    (out : List ReconRow) (h : process_data po wb = some out) :
    out = List.insertionSort impactGe
      ((matchedPairs po wb).map (fun wp => buildRow wp.1 wp.2)) := by
  unfold process_data process_data_body at h
  cases herr : process_data_err po wb with
  | some e => rw [herr] at h; exact absurd h (by simp [Except.toOption])
  | none =>
      rw [herr] at h
      simp only [Except.toOption] at h
      exact (Option.some.inj h).symm

/-- Completeness of the join: every matching pair contributes its row. -/
lemma mem_processed_of_match (po : OpenPoTable) (wb : WorkbenchTable)
    (out : List ReconRow) (h : process_data po wb = some out)
    (w : WorkbenchRow) (hw : w ∈ wb.rows) (p : OpenPoRow) (hp : p ∈ po.rows)
    (hitem : p.item = w.partNumber) (hv : p.vendorNum = w.vendorNum)
    (hline : p.lineType = "Inventory") : buildRow w p ∈ out := by
  rw [process_data_some_eq po wb out h, List.mem_insertionSort]
  refine List.mem_map.mpr ⟨(w, p), ?_, rfl⟩
  unfold matchedPairs invRows
  refine List.mem_flatMap.mpr ⟨w, hw, ?_⟩
  refine List.mem_map.mpr ⟨p, ?_, rfl⟩
  refine List.mem_filter.mpr ⟨?_, by simp [hitem, hv]⟩
  exact List.mem_filter.mpr ⟨hp, by simp [hline]⟩

/-- Soundness of the join: every reconciled row comes from a matching
pair, whose PO side passed the `Inventory` filter. -/
lemma processed_mem_src (po : OpenPoTable) (wb : WorkbenchTable)
    (out : List ReconRow) (h : process_data po wb = some out)
    (r : ReconRow) (hr : r ∈ out) :
    ∃ w ∈ wb.rows, ∃ p ∈ po.rows,
      r = buildRow w p ∧ p.item = w.partNumber ∧
      p.vendorNum = w.vendorNum ∧ p.lineType = "Inventory" := by
  rw [process_data_some_eq po wb out h, List.mem_insertionSort] at hr
  obtain ⟨wp, hwp, hb⟩ := List.mem_map.mp hr
  unfold matchedPairs invRows at hwp
  obtain ⟨w2, hw2, hmem⟩ := List.mem_flatMap.mp hwp
  obtain ⟨p2, hp2, heq⟩ := List.mem_map.mp hmem
  subst heq
  obtain ⟨hinv, hkeys⟩ := List.mem_filter.mp hp2
  obtain ⟨hrows, hline⟩ := List.mem_filter.mp hinv
  simp only [Bool.and_eq_true, beq_iff_eq] at hkeys hline
  exact ⟨w2, hw2, p2, hrows, hb.symm, hkeys.1, hkeys.2, hline⟩

/-- The descending `NaN`-last cell order is total. -/
lemma oge_total (a b : Option ℚ) : oge a b = true ∨ oge b a = true := by
  cases a with
  | none => cases b <;> simp [oge]
  | some x =>
      cases b with
      | none => simp [oge]
      | some y => simpa [oge] using le_total y x

/-- The descending `NaN`-last cell order is transitive. -/
lemma oge_trans (a b c : Option ℚ) (h1 : oge a b = true)
    (h2 : oge b c = true) : oge a c = true := by
  cases a <;> cases b <;> cases c <;> simp_all [oge]
  exact h2.trans h1

/-- `impactGe` is total: any two rows are comparable under the
descending-impact order. -/
instance : IsTotal ReconRow impactGe where
  total a b := oge_total a.impactEuros b.impactEuros

/-- `impactGe` is transitive. -/
instance : IsTrans ReconRow impactGe where
  trans a b c h1 h2 := oge_trans _ _ _ h1 h2

/-- If some merged row has an unparseable date, the body raises: either a
`keyError` on an earlier column subscript, or the `dateParseError` of
line 228. -/
lemma err_some_of_bad_date (po : OpenPoTable) (wb : WorkbenchTable)
    (hany : (matchedPairs po wb).any
      (fun wp => wp.2.poShipmentCreationDate.isNone) = true) :
    process_data_err po wb ≠ none := by
  intro h
  unfold process_data_err at h
  by_cases h1 : "LINE_TYPE" ∉ po.cols
  · rw [if_pos h1] at h; exact Option.noConfusion h
  rw [if_neg h1] at h
  by_cases h2 : "PART_NUMBER" ∉ wb.cols
  · rw [if_pos h2] at h; exact Option.noConfusion h
  rw [if_neg h2] at h
  by_cases h3 : "VENDOR_NUM" ∉ wb.cols
  · rw [if_pos h3] at h; exact Option.noConfusion h
  rw [if_neg h3] at h
  by_cases h4 : "ITEM" ∉ po.cols
  · rw [if_pos h4] at h; exact Option.noConfusion h
  rw [if_neg h4] at h
  by_cases h5 : "VENDOR_NUM" ∉ po.cols
  · rw [if_pos h5] at h; exact Option.noConfusion h
  rw [if_neg h5] at h
  by_cases h6 : "VENDOR_NAME" ∉ wb.cols
  · rw [if_pos h6] at h; exact Option.noConfusion h
  rw [if_neg h6] at h
  by_cases h7 : "PO_SHIPMENT_CREATION_DATE" ∉ po.cols
  · rw [if_pos h7] at h; exact Option.noConfusion h
  rw [if_neg h7, if_pos hany] at h
  exact Option.noConfusion h

/-! ## Claims -/

/-- C1 (counterexample): the normalizer is not a passthrough on unknown
codes — `convert_to_euro(100, "ZZZ")` is Python `None`, not the original
amount 100. -/
theorem convert_to_euro_unknown_is_none :
    convert_to_euro 100 "ZZZ" = none ∧ convert_to_euro 100 "ZZZ" ≠ some 100 :=
  ⟨rfl, fun hc => Option.noConfusion
    (show (none : Option ℚ) = some 100 from hc)⟩

/-- C1 (amended): `convert_to_euro` returns `amount * rate` for each of
the four keys of the static rate table and Python `None` (`none`) — not
the original amount — for every other currency code. -/
theorem convert_to_euro_known_or_none (price : ℚ) (c : String) :
    (c = "USD" → convert_to_euro price c = some (price * (93/100)))
    ∧ (c = "GBP" → convert_to_euro price c = some (price * (12/10)))
    ∧ (c = "INR" → convert_to_euro price c = some (price * (11/1000)))
    ∧ (c = "JPY" → convert_to_euro price c = some (price * (61/10000)))
    ∧ (c ≠ "USD" → c ≠ "GBP" → c ≠ "INR" → c ≠ "JPY" →
        convert_to_euro price c = none) := by
  refine ⟨?_, ?_, ?_, ?_, ?_⟩
  · rintro rfl; rfl
  · rintro rfl; rfl
  · rintro rfl; rfl
  · rintro rfl; rfl
  · intro h1 h2 h3 h4
    have e1 : (c == "USD") = false := beq_eq_false_iff_ne.mpr h1
    have e2 : (c == "GBP") = false := beq_eq_false_iff_ne.mpr h2
    have e3 : (c == "INR") = false := beq_eq_false_iff_ne.mpr h3
    have e4 : (c == "JPY") = false := beq_eq_false_iff_ne.mpr h4
    simp [convert_to_euro, CONVERSION_RATES, List.lookup, e1, e2, e3, e4]

/-- C1 (witness): the amended theorem evaluated at amount 100 and the
unknown code "ZZZ". -/
theorem convert_to_euro_known_or_none_witness :
    convert_to_euro 100 "ZZZ" = none :=
  (convert_to_euro_known_or_none 100 "ZZZ").2.2.2.2
    (by decide) (by decide) (by decide) (by decide)

/-- C2 (confirmed): when `process_data` succeeds, a reconciled row exists
for a Workbench row `w` and an Open-PO row `p` exactly when
`p.ITEM = w.PART_NUMBER`, `p.VENDOR_NUM = w.VENDOR_NUM` and
`p.LINE_TYPE = "Inventory"`; every output row arises from such a matching
pair (so none references a PO row of a different line type), and rows
unmatched on either side contribute nothing. -/
theorem process_data_join_iff (po : OpenPoTable) (wb : WorkbenchTable)
    (out : List ReconRow) (h : process_data po wb = some out) :
    (∀ w ∈ wb.rows, ∀ p ∈ po.rows,
        p.item = w.partNumber → p.vendorNum = w.vendorNum →
        p.lineType = "Inventory" → buildRow w p ∈ out)
    ∧ (∀ r ∈ out, ∃ w ∈ wb.rows, ∃ p ∈ po.rows,
        r = buildRow w p ∧ p.item = w.partNumber ∧
        p.vendorNum = w.vendorNum ∧ p.lineType = "Inventory") :=
  ⟨fun w hw p hp hitem hv hline =>
      mem_processed_of_match po wb out h w hw p hp hitem hv hline,
   fun r hr => processed_mem_src po wb out h r hr⟩

/-- C2 (witness): the join theorem evaluated on the one-pair tables. -/
theorem process_data_join_iff_witness :
    buildRow w0 p0 ∈ [buildRow w0 p0] :=
  (process_data_join_iff sPo sWb [buildRow w0 p0] sample_run).1
    w0 (by simp [sWb]) p0 (by simp [sPo]) rfl rfl rfl

/-- C3 (counterexample): no numeric fallback exists for unknown
currencies.  On a two-line input whose second PO line is in the
unrecognized currency "ZZZ", `process_data` succeeds and returns a row
whose `Impact in Euros` is null (`none`/`NaN`), not a number. -/
theorem process_data_null_impact_row :
    (process_data cPo sWb).map (fun t => t.map (fun r => r.impactEuros))
      = some [some 93, none] := by
  rw [c34_run]
  have h1 : (buildRow w0 p0).impactEuros = some 93 := by
    norm_num [buildRow, convert_to_euro, CONVERSION_RATES, osub, w0, p0,
      List.lookup]
  have h2 : (buildRow w0 pB).impactEuros = none := rfl
  simp [h1, h2]

/-- C3 (amended): on every successful run, a reconciled row has numeric
`impact` and `open_po_value` when both its currency codes are keys of the
rate table; when the PO-side code is unknown, the converted price,
`impact` and `open_po_value` of that row are all null — there is no
fallback to the unconverted amount. -/
theorem eur_fields_currency_cases (po : OpenPoTable) (wb : WorkbenchTable)
    (out : List ReconRow) (h : process_data po wb = some out)
    (r : ReconRow) (hr : r ∈ out) :
    ((CONVERSION_RATES.lookup r.currnecyOpo).isSome = true →
      (CONVERSION_RATES.lookup r.currencyCodeWb).isSome = true →
      r.impactEuros.isSome = true ∧ r.openPoValue.isSome = true)
    ∧ (CONVERSION_RATES.lookup r.currnecyOpo = none →
      r.unitPriceOpoEur = none ∧ r.impactEuros = none ∧
      r.openPoValue = none) := by
  obtain ⟨w, hw, p, hp, rfl, hitem, hv, hline⟩ :=
    processed_mem_src po wb out h r hr
  constructor
  · intro h1 h2
    simp only [buildRow] at h1 h2 ⊢
    rcases hl1 : CONVERSION_RATES.lookup p.currnecy with _ | rate1
    · rw [hl1] at h1; exact absurd h1 (by simp)
    rcases hl2 : CONVERSION_RATES.lookup w.currencyCode with _ | rate2
    · rw [hl2] at h2; exact absurd h2 (by simp)
    constructor <;> simp [convert_to_euro, hl1, hl2, osub]
  · intro h1
    simp only [buildRow] at h1 ⊢
    refine ⟨?_, ?_, ?_⟩ <;> simp [convert_to_euro, h1, osub]

/-- C3 (witness): the amended theorem evaluated on the all-USD one-pair
run, where both conversions are defined. -/
theorem eur_fields_currency_cases_witness :
    (buildRow w0 p0).impactEuros.isSome = true ∧
    (buildRow w0 p0).openPoValue.isSome = true :=
  (eur_fields_currency_cases sPo sWb [buildRow w0 p0] sample_run
    (buildRow w0 p0) (by simp)).1 rfl rfl

/-- C4 (counterexample): on a reconciled table with two rows for the same
part "P1", `generate_insights` reports `total_parts = 2` (the row count,
`len(df)`), while the set-cardinality of distinct part identifiers
is 1. -/
theorem total_parts_row_count_not_distinct :
    (process_data cPo sWb).map
        (fun t => ((generate_insights t).totalParts, spec_distinct_parts t))
      = some (2, 1) := by
  rw [c34_run]
  norm_num [generate_insights, spec_distinct_parts, buildRow, w0, p0, pB,
    List.dedup]

/-- C4 (amended): the distinct-vendor count of `generate_insights` is the
set-cardinality of the `VENDOR_NAME` attribute (as the claim states), but
the parts figure is the row count `len(df)` of the reconciled table, not
a distinct count of part identifiers. -/
theorem insight_counts_formula (df : List ReconRow) :
    (generate_insights df).uniqueVendors = spec_distinct_vendors df
    ∧ (generate_insights df).totalParts = df.length :=
  ⟨rfl, rfl⟩

/-- C5 (confirmed): every row of a successful `process_data` run
satisfies the derived-metric identities exactly —
`Impact in Euros = (UNIT_PRICE_OPO_EUR - UNIT_PRICE_WB_EUR) *
QTY_ELIGIBLE_TO_SHIP` and `Open PO Value = QTY_ELIGIBLE_TO_SHIP *
UNIT_PRICE_OPO_EUR` — at the cell level, with `none` (`NaN`)
propagation. -/
theorem impact_open_po_identity (po : OpenPoTable) (wb : WorkbenchTable)
    (out : List ReconRow) (h : process_data po wb = some out) :
    ∀ r ∈ out,
      r.impactEuros = (osub r.unitPriceOpoEur r.unitPriceWbEur).map
        (fun d => d * r.qtyEligibleToShip)
      ∧ r.openPoValue = r.unitPriceOpoEur.map
        (fun x => r.qtyEligibleToShip * x) := by
  intro r hr
  obtain ⟨w, hw, p, hp, rfl, hitem, hv, hline⟩ :=
    processed_mem_src po wb out h r hr
  exact ⟨rfl, rfl⟩

/-- C5 (witness): the identities evaluated on the one-pair run. -/
theorem impact_open_po_identity_witness :
    (buildRow w0 p0).impactEuros
      = (osub (buildRow w0 p0).unitPriceOpoEur
          (buildRow w0 p0).unitPriceWbEur).map
        (fun d => d * (buildRow w0 p0).qtyEligibleToShip)
    ∧ (buildRow w0 p0).openPoValue
      = (buildRow w0 p0).unitPriceOpoEur.map
        (fun x => (buildRow w0 p0).qtyEligibleToShip * x) :=
  impact_open_po_identity sPo sWb [buildRow w0 p0] sample_run
    (buildRow w0 p0) (by simp)

/-- C6 (counterexample): a row whose shipment-creation date does not
parse is not retained with an undefined `po_year` — `pd.to_datetime`
raises, the `except` catches, and `process_data` returns `None`, losing
every row of the pass. -/
theorem bad_date_drops_all_rows :
    process_data_body c6Po c6Wb = .error .dateParseError
    ∧ process_data c6Po c6Wb = none :=
  ⟨rfl, rfl⟩

/-- C6 (amended): if any matched row carries an unparseable
shipment-creation date, the whole pass aborts: `process_data` returns
`None` and no reconciled table (not even the unaffected rows) is
produced. -/
theorem date_failure_aborts_pass (po : OpenPoTable) (wb : WorkbenchTable)
    (w : WorkbenchRow) (hw : w ∈ wb.rows) (p : OpenPoRow)
    (hp : p ∈ po.rows) (hline : p.lineType = "Inventory")
    (hitem : p.item = w.partNumber) (hv : p.vendorNum = w.vendorNum)
    (hd : p.poShipmentCreationDate = none) :
    process_data po wb = none := by
  have hpair : (w, p) ∈ matchedPairs po wb := by
    unfold matchedPairs invRows
    refine List.mem_flatMap.mpr ⟨w, hw, ?_⟩
    refine List.mem_map.mpr ⟨p, ?_, rfl⟩
    refine List.mem_filter.mpr
      ⟨List.mem_filter.mpr ⟨hp, by simp [hline]⟩, by simp [hitem, hv]⟩
  have hany : (matchedPairs po wb).any
      (fun wp => wp.2.poShipmentCreationDate.isNone) = true :=
    List.any_eq_true.mpr ⟨(w, p), hpair, by simp [hd]⟩
  unfold process_data process_data_body
  cases herr : process_data_err po wb with
  | some e => simp [Except.toOption]
  | none => exact absurd herr (err_some_of_bad_date po wb hany)

/-- C6 (witness): the amended theorem evaluated on the one-row bad-date
tables. -/
theorem date_failure_aborts_pass_witness : process_data c6Po c6Wb = none :=
  date_failure_aborts_pass c6Po c6Wb c6w (by simp [c6Wb]) c6p
    (by simp [c6Po]) rfl rfl rfl rfl

/-- C7 (counterexample): called on an empty reconciled table,
`generate_insights` does not signal "no insights" — it returns an
ordinary summary whose totals and counts are all zero.  (The empty-state
handling lives in the caller, which skips the call.) -/
theorem generate_insights_empty_zero_summary :
    generate_insights [] =
      { totalImpact := 0, totalPoValue := 0, totalParts := 0,
        uniqueVendors := 0, impactByVendor := [], impactByCategory := [] } :=
  rfl

/-- C7 (amended): `generate_insights` itself is total and returns the
all-zero summary on an empty table; the distinguished no-data state is
produced by `main`, whose guard refuses to render the dashboard (and
never calls `generate_insights`) when the reconciled table is empty or
absent. -/
theorem empty_insights_caller_guard :
    generate_insights [] =
      { totalImpact := 0, totalPoValue := 0, totalParts := 0,
        uniqueVendors := 0, impactByVendor := [], impactByCategory := [] }
    ∧ main_renders_dashboard (some []) = false
    ∧ main_renders_dashboard none = false :=
  ⟨rfl, rfl, rfl⟩

/-- C8 (counterexample): with `LINE_TYPE` absent from the Open-PO input,
the body raises a plain `KeyError` — not the `SchemaError` the claim
names — and the caller receives only `None`, not a failure value naming
the field. -/
theorem missing_column_keyerror_not_schema :
    process_data_body c8Po sWb = .error (.keyError "LINE_TYPE")
    ∧ is_schema_error_result (process_data_body c8Po sWb) = false
    ∧ process_data c8Po sWb = none :=
  ⟨rfl, rfl, rfl⟩

/-- C8 (amended): when the required `LINE_TYPE` attribute is missing, the
internal computation raises a `KeyError` naming that field, the
`except` swallows it, and `process_data` returns `None` to the caller —
no partial reconciled table is produced, but no `SchemaError` value
reaches the caller either. -/
theorem missing_line_type_returns_none (po : OpenPoTable)
    (wb : WorkbenchTable) (h : "LINE_TYPE" ∉ po.cols) :
    process_data_body po wb = .error (.keyError "LINE_TYPE")
    ∧ process_data po wb = none := by
  have he : process_data_err po wb = some (.keyError "LINE_TYPE") := by
    unfold process_data_err
    rw [if_pos h]
  constructor
  · unfold process_data_body
    rw [he]
  · unfold process_data process_data_body
    rw [he]
    rfl

/-- C8 (witness): the amended theorem evaluated on the table without a
`LINE_TYPE` column. -/
theorem missing_line_type_returns_none_witness :
    process_data_body c8Po sWb = .error (.keyError "LINE_TYPE")
    ∧ process_data c8Po sWb = none :=
  missing_line_type_returns_none c8Po sWb (by decide)

/-- C9 (confirmed): the reconciled table returned by a successful
`process_data` run is non-increasing in `Impact in Euros` across row
order: each consecutive pair satisfies `impactGe`, which on numeric
impacts is exactly `impact(i) ≥ impact(i+1)` and places null (`NaN`)
impacts after all numeric ones. -/
theorem impact_sorted_nonincreasing (po : OpenPoTable)
    (wb : WorkbenchTable) (out : List ReconRow)
    (h : process_data po wb = some out) : List.Chain' impactGe out := by
  rw [process_data_some_eq po wb out h]
  exact List.Pairwise.chain' (List.sorted_insertionSort impactGe _)

/-- C9 (witness): the sort postcondition evaluated on the one-pair run. -/
theorem impact_sorted_nonincreasing_witness :
    List.Chain' impactGe [buildRow w0 p0] :=
  impact_sorted_nonincreasing sPo sWb [buildRow w0 p0] sample_run

/-- C10 (confirmed): `process_data` never propagates an exception — the
caller sees `None` exactly when the body raised (any error), and the
frame itself otherwise; success and failure are distinguished solely by
`None`-ness of the result. -/
theorem process_data_never_raises (po : OpenPoTable)
    (wb : WorkbenchTable) :
    (process_data po wb = none ↔ ∃ e, process_data_body po wb = .error e)
    ∧ (∀ t, process_data po wb = some t ↔
        process_data_body po wb = .ok t) := by
  cases hb : process_data_body po wb with
  | error e => simp [process_data, hb, Except.toOption]
  | ok t => simp [process_data, hb, Except.toOption]
